import Mathlib

/-!
Shallow embedding of `docx_processor/processor.py` (pipeline logic only;
the GUI and filesystem/XML side effects are out of scope).

Python values flowing through the pipeline are cells that are either
strings or floats; floats are modelled as exact rationals (no claim here
depends on binary rounding).  Python exceptions are modelled by the
`Exc` inductive and fallible functions return `Except Exc _`.
-/

/-- A table cell: Python `Cell = str | float`. Floats modelled as `ℚ`. -/
inductive Cell where
  | str : String → Cell
  | num : ℚ → Cell
deriving DecidableEq, Repr

abbrev Row := List Cell
abbrev Table := List Row
abbrev Document := List Table

/-- The exception classes reachable by the pipeline: the three domain
errors (`DocumentLoadingError`, `TableProcessingError`, `ExportError`,
all subclasses of `DocumentProcessingError`) and the builtin
`ValueError` / `IndexError`.  Each carries its message (`str(e)`). -/
inductive Exc where
  | documentLoadingError : String → Exc
  | tableProcessingError : String → Exc
  | exportError : String → Exc
  | valueError : String → Exc
  | indexError : String → Exc
deriving DecidableEq, Repr

/-- `str(e)`: the message carried by the exception. -/
def Exc.msg : Exc → String
  | .documentLoadingError m => m
  | .tableProcessingError m => m
  | .exportError m => m
  | .valueError m => m
  | .indexError m => m

/-- `isinstance(e, TableProcessingError)`. -/
def Exc.isTableProcessingError : Exc → Bool
  | .tableProcessingError _ => true
  | _ => false

/-- `isinstance(e, IndexError)`. -/
def Exc.isIndexError : Exc → Bool
  | .indexError _ => true
  | _ => false

/-- Python truthiness of a cell: `""` and `0.0` are falsy. -/
def Cell.isTruthy : Cell → Bool
  | .str s => !s.isEmpty
  | .num q => q != 0

/-- `str(cell)` as used in f-string error messages.  For floats Python's
repr is abstracted by the rational's repr; no claim depends on it. -/
def Cell.pyStr : Cell → String
  | .str s => s
  | .num q => toString q

/-- Python list read `l[i]` for a non-negative index: raises
`IndexError` when out of bounds. -/
def pyGet {α : Type} (l : List α) (i : Nat) : Except Exc α :=
  if h : i < l.length then .ok (l.get ⟨i, h⟩)
  else .error (.indexError "list index out of range")

/-- Python list assignment `l[i] = a` for a non-negative index: raises
`IndexError` when out of bounds, else returns the updated list. -/
def pySet {α : Type} (l : List α) (i : Nat) (a : α) : Except Exc (List α) :=
  if i < l.length then .ok (l.set i a)
  else .error (.indexError "list assignment index out of range")

/-- Python `str.isdigit` restricted to ASCII: true iff the string is
non-empty and every character is a decimal digit.  This is the default
`id_test_func` (`lambda s: s.isdigit()`). -/
def pyIsdigit (s : String) : Bool :=
  !s.data.isEmpty && s.data.all Char.isDigit

/-- Python `s.strip()`: drop whitespace from both ends. -/
def pyStrip (s : String) : String :=
  String.mk (((s.data.dropWhile Char.isWhitespace).reverse.dropWhile
    Char.isWhitespace).reverse)

/-- `TransactionRowParsingConfig`: `field_count` (pydantic `gt=0`, taken
as a hypothesis where needed) and the ID-token predicate. -/
structure TransactionRowParsingConfig where
  field_count : Nat
  id_test_func : String → Bool

/-- `TableFormat`: header/footer lengths and the account/debit/credit
cell indices (all pydantic `ge=0`, hence `Nat`). -/
structure TableFormat where
  header_len : Nat
  footer_len : Nat
  account_cell_index : Nat
  debit_cell_index : Nat
  credit_cell_index : Nat
  transaction_row_parsing_config : TransactionRowParsingConfig

/-- `InputDocumentFormat`.  The path-existence validator is a
filesystem effect and is not modelled; `table_index` is kept as `Int`
because `choose_table` re-checks `index < 0` itself. -/
structure InputDocumentFormat where
  path : String
  table_index : Int

/-- `OutputDocumentFormat` (pydantic `min_length=1` on `columns` taken
as a hypothesis where needed; the path validator is a filesystem
effect and is not modelled). -/
structure OutputDocumentFormat where
  path : String
  columns : List String

/-- `choose_table`: select `tables[index]`, failing with a
`TableProcessingError` on an empty document, an out-of-range index, or
an empty selected table.  The outer `except Exception` re-wrap clause
is unreachable (every access inside is guarded), so it does not appear. -/
def choose_table (tables : Document) (input_document_format : InputDocumentFormat) :
    Except Exc Table :=
  if tables.isEmpty then
    .error (.tableProcessingError "No tables available in the document")
  else
    let index := input_document_format.table_index
    if index < 0 ∨ (tables.length : Int) ≤ index then
      .error (.tableProcessingError
        ("Table index " ++ toString index ++ " out of range (0-" ++
          toString (tables.length - 1) ++ ")"))
    else
      let table := tables.getD index.toNat []
      if table.isEmpty then
        .error (.tableProcessingError
          ("Selected table " ++ toString index ++ " is empty"))
      else .ok table

/-- `empty_header`: default header strategy. -/
def empty_header (_table : Table) (_table_format : TableFormat) :
    Except Exc (List Row) :=
  .ok []

/-- `empty_footer`: default footer strategy. -/
def empty_footer (_table : Table) (_table_format : TableFormat) :
    Except Exc (List Row) :=
  .ok []

/-- `validate_row_index`: `TableProcessingError` when the row is empty
or the index is out of range (the `index < 0` branch is vacuous for
`Nat` indices, which pydantic guarantees). -/
def validate_row_index (row : Row) (index : Nat) (function_name : String) :
    Except Exc Unit :=
  if row.isEmpty then
    .error (.tableProcessingError (function_name ++ ": Row is empty"))
  else if row.length ≤ index then
    .error (.tableProcessingError
      (function_name ++ ": Index " ++ toString index ++ " out of range (0-" ++
        toString (row.length - 1) ++ ")"))
  else .ok ()

/-- The `except TableProcessingError: raise / except Exception: wrap`
pattern shared by the row processors: a domain error passes through,
anything else is re-wrapped with the given prefix. -/
def wrapUnlessDomain (prefixMsg : String) (e : Exc) : Exc :=
  if e.isTableProcessingError then e
  else .tableProcessingError (prefixMsg ++ e.msg)

/-- `process_detail_row_and_process_account_debit_credit`: copy the row,
validate the three configured indices, then replace the account, debit
and credit cells by the respective transforms (each transform reads the
copy as already updated by the previous ones, as the Python does). -/
def process_detail_row_and_process_account_debit_credit
    (row : Row) (table_format : TableFormat)
    (process_account_func process_debit_func process_credit_func :
      Cell → Except Exc Cell) : Except Exc Row :=
  let core : Except Exc Row := do
    let row_copy := row
    let _ ← validate_row_index row_copy table_format.account_cell_index
      "process_detail_row_and_process_account_debit_credit"
    let _ ← validate_row_index row_copy table_format.debit_cell_index
      "process_detail_row_and_process_account_debit_credit"
    let _ ← validate_row_index row_copy table_format.credit_cell_index
      "process_detail_row_and_process_account_debit_credit"
    let a ← process_account_func (row_copy.getD table_format.account_cell_index (.str ""))
    let row_copy := row_copy.set table_format.account_cell_index a
    let d ← process_debit_func (row_copy.getD table_format.debit_cell_index (.str ""))
    let row_copy := row_copy.set table_format.debit_cell_index d
    let c ← process_credit_func (row_copy.getD table_format.credit_cell_index (.str ""))
    pure (row_copy.set table_format.credit_cell_index c)
  match core with
  | .ok r => .ok r
  | .error e => .error (wrapUnlessDomain "Error processing detail row: " e)

/-- `combine_rows`: concatenate detail and transaction rows; fails when
either is empty. -/
def combine_rows (detail_row transaction_row : Row) (_table_format : TableFormat) :
    Except Exc Row :=
  if detail_row.isEmpty then
    .error (.tableProcessingError "Detail row is empty")
  else if transaction_row.isEmpty then
    .error (.tableProcessingError "Transaction row is empty")
  else .ok (detail_row ++ transaction_row)

/-- `export_to_excel`: the explicit validation, then the deterministic
part of `pd.DataFrame(table, columns=...)`.  The nested-list conversion
takes the data width to be the maximum row width, padding shorter rows,
and raises `ValueError("N columns passed, passed data had M columns")`
when that width differs from the number of column names; the
`except Exception` clause wraps it as
`ExportError("Failed to export to Excel: ...")`.  Only the file write
`to_excel` itself is an external effect, modelled as succeeding. -/
def export_to_excel (table : Table) (output_document_format : OutputDocumentFormat) :
    Except Exc Unit :=
  if table.isEmpty then
    .error (.exportError "Cannot export empty table")
  else if (table.headD []).length ≠ output_document_format.columns.length then
    .error (.exportError
      ("Table has " ++ toString (table.headD []).length ++ " columns but " ++
        toString output_document_format.columns.length ++
        " column names were provided"))
  else
    let dataWidth := (table.map List.length).foldr max 0
    if dataWidth ≠ output_document_format.columns.length then
      .error (.exportError
        ("Failed to export to Excel: " ++
          toString output_document_format.columns.length ++
          " columns passed, passed data had " ++ toString dataWidth ++ " columns"))
    else .ok ()

/-- Python `s.replace(" ", "")`: the pattern is a single character, so
this deletes every space. -/
def pyRemoveSpaces (s : String) : String :=
  String.mk (s.data.filter (fun c => c ≠ ' '))

/-- Python `s.replace(",", ".")`: single-character pattern and
replacement, so this maps every comma to a dot. -/
def pyCommaToDot (s : String) : String :=
  String.mk (s.data.map (fun c => if c = ',' then '.' else c))

/-- `replace_whitespace`: strips spaces from a string cell; raises
`ValueError` on a non-string. -/
def replace_whitespace (text : Cell) : Except Exc Cell :=
  match text with
  | .str s => .ok (.str (pyRemoveSpaces s))
  | .num _ => .error (.valueError ("Expected string, got float"))

/-- Accumulate a digit run into a natural number. -/
def digitsToNat (cs : List Char) : Nat :=
  cs.foldl (fun a c => a * 10 + (c.toNat - 48)) 0

/-- Exponent suffix of a float literal: optional sign then at least one
digit, consuming the whole remainder.  The mantissa is carried as a
numerator/denominator pair. -/
def applyExp (num : Int) (den : Nat) (cs : List Char) : Option ℚ :=
  let (eneg, cs1) := match cs with
    | '+' :: r => (false, r)
    | '-' :: r => (true, r)
    | _ => (false, cs)
  let ds := cs1.takeWhile Char.isDigit
  let rest := cs1.dropWhile Char.isDigit
  if ds.isEmpty ∨ !rest.isEmpty then none
  else
    let e := digitsToNat ds
    some (if eneg then mkRat num (den * 10 ^ e) else mkRat (num * (10 : Int) ^ e) den)

/-- Python's builtin `float(s)` on decimal literals: optional sign,
digits with an optional point and fraction, optional exponent.  The
special forms `inf`/`nan` and digit-group underscores are outside the
fragment this pipeline feeds it and are not modelled.  The value is the
exact rational the literal denotes. -/
def pyFloat? (s : String) : Option ℚ :=
  let cs := s.data
  let (sgn, cs1) := match cs with
    | '+' :: r => ((1 : Int), r)
    | '-' :: r => ((-1 : Int), r)
    | _ => ((1 : Int), cs)
  let intPart := cs1.takeWhile Char.isDigit
  let rest := cs1.dropWhile Char.isDigit
  let (fracPart, rest2) := match rest with
    | '.' :: r => (r.takeWhile Char.isDigit, r.dropWhile Char.isDigit)
    | _ => (([] : List Char), rest)
  if intPart.isEmpty ∧ fracPart.isEmpty then none
  else
    let num : Int := sgn *
      ((digitsToNat intPart : Int) * (10 : Int) ^ fracPart.length +
        (digitsToNat fracPart : Int))
    let den : Nat := 10 ^ fracPart.length
    match rest2 with
    | [] => some (mkRat num den)
    | 'e' :: r => applyExp num den r
    | 'E' :: r => applyExp num den r
    | _ => none

/-- `convert_to_float`: empty string maps to `0.0`; otherwise strip
spaces, map `","` to `"."`, and parse as a float.  Every failure
(including a non-string input) surfaces as
`ValueError("Cannot convert '...' to float")`, where the quoted text is
the cleaned string when cleaning already happened (the Python `text`
variable is reassigned before `float` is called). -/
def convert_to_float (text : Cell) : Except Exc Cell :=
  match text with
  | .num _ =>
    .error (.valueError ("Cannot convert '" ++ text.pyStr ++ "' to float"))
  | .str s =>
    if s.isEmpty then .ok (.num 0)
    else
      let t := pyCommaToDot (pyRemoveSpaces s)
      match pyFloat? t with
      | some q => .ok (.num q)
      | none => .error (.valueError ("Cannot convert '" ++ t ++ "' to float"))

/-- Python `s.split(" ")` at the character level: split on every single
space, keeping empty pieces (`"".split(" ") == [""]`,
`"a  b".split(" ") == ["a", "", "b"]`). -/
def splitOnSpaceChars : List Char → List (List Char)
  | [] => [[]]
  | c :: rest =>
    match splitOnSpaceChars rest with
    | [] => [[]]
    | h :: t => if c = ' ' then [] :: h :: t else (c :: h) :: t

/-- Python `s.split(" ")`. -/
def pySplitSpace (s : String) : List String :=
  (splitOnSpaceChars s.data).map String.mk

/-- Python `" ".join(pieces)` at the character level. -/
def joinSpaceChars : List (List Char) → List Char
  | [] => []
  | [x] => x
  | x :: y :: t => x ++ ' ' :: joinSpaceChars (y :: t)

/-- Python `" ".join(pieces)`. -/
def pyJoinSpace (l : List String) : String :=
  String.mk (joinSpaceChars (l.map String.data))

/-- `parse_transaction_description`: split the first cell on spaces,
find the first token accepted by the ID predicate, and fill positions
0/1/2 of a `field_count`-long result with counterparty/ID/description.
The surrounding `try` has no domain pass-through clause, so every
internal failure — including the type-mismatch `TableProcessingError` —
is re-wrapped with the `"Error parsing transaction description: "`
prefix. -/
def parse_transaction_description (row : Row) (table_format : TableFormat) :
    Except Exc Row :=
  let config := table_format.transaction_row_parsing_config
  let core : Except Exc Row :=
    match row with
    | [] => .ok (List.replicate config.field_count (.str ""))
    | c0 :: _ =>
      if !c0.isTruthy then .ok (List.replicate config.field_count (.str ""))
      else
        match c0 with
        | .num _ =>
          .error (.tableProcessingError "Expected string in row[0], got float")
        | .str s =>
          let text := pySplitSpace s
          let result : Row := List.replicate config.field_count (.str "")
          match text.findIdx? config.id_test_func with
          | some i => do
            let r0 ← pySet result 0 (.str (pyStrip (pyJoinSpace (text.take i))))
            let r1 ← pySet r0 1 (.str (text.getD i ""))
            let r2 ← pySet r1 2 (.str (pyStrip (pyJoinSpace (text.drop (i + 1)))))
            pure r2
          | none =>
            if !text.isEmpty then
              pySet result 0 (.str (pyStrip (pyJoinSpace text)))
            else .ok result
  match core with
  | .ok r => .ok r
  | .error e =>
    .error (.tableProcessingError ("Error parsing transaction description: " ++ e.msg))

/-- `ProcessingConfiguration`: the strategy record consumed by
`extract_transactions`. -/
structure ProcessingConfiguration where
  header_processing_strategy : Table → TableFormat → Except Exc (List Row)
  footer_processing_strategy : Table → TableFormat → Except Exc (List Row)
  detail_row_processing_strategy : Row → TableFormat → Except Exc Row
  transaction_row_processing_strategy : Row → TableFormat → Except Exc Row
  combine_rows_strategy : Row → Row → TableFormat → Except Exc Row
  table_format : TableFormat

/-- The per-pair exception handlers of the `extract_transactions` loop:
an `IndexError` becomes `"Index error at row i/len"`, and every other
exception — domain errors included, since the inner `try` has no
pass-through clause — becomes `"Error processing rows i-(i+1): ..."`. -/
def wrapPair (i tableLen : Nat) (e : Exc) : Exc :=
  if e.isIndexError then
    .tableProcessingError
      ("Index error at row " ++ toString i ++ "/" ++ toString tableLen)
  else
    .tableProcessingError
      ("Error processing rows " ++ toString i ++ "-" ++ toString (i + 1) ++
        ": " ++ e.msg)

/-- The outer handler of `extract_transactions`: domain errors pass
through, anything else is re-wrapped. -/
def wrapExtract (e : Exc) : Exc :=
  wrapUnlessDomain "Error extracting transactions: " e

/-- The `while i < table_end - 1` loop of `extract_transactions`:
process the pair `(table[i], table[i+1])`, append the combined row, and
advance by 2. -/
def extractLoop (config : ProcessingConfiguration) (table : Table)
    (table_end : Nat) (i : Nat) : Except Exc (List Row) :=
  if _h : i < table_end - 1 then
    match (do
        let rowD ← pyGet table i
        let detail_row ← config.detail_row_processing_strategy rowD config.table_format
        let rowT ← pyGet table (i + 1)
        let transaction_row ←
          config.transaction_row_processing_strategy rowT config.table_format
        config.combine_rows_strategy detail_row transaction_row config.table_format :
        Except Exc Row) with
    | .error e => .error (wrapPair i table.length e)
    | .ok combined_row =>
      match extractLoop config table table_end (i + 2) with
      | .error e => .error e
      | .ok rest => .ok (combined_row :: rest)
  else .ok []
termination_by table_end - i
decreasing_by omega

/-- `extract_transactions`: reject an empty or undersized table, run the
header and footer strategies, pair up the body rows, and return
`header ++ transactions ++ footer`. -/
def extract_transactions (config : ProcessingConfiguration) (table : Table) :
    Except Exc Table :=
  if table.isEmpty then .error (.tableProcessingError "Table is empty")
  else
    let header_len := config.table_format.header_len
    let footer_len := config.table_format.footer_len
    let min_rows := header_len + footer_len
    if table.length < min_rows then
      .error (.tableProcessingError
        ("Table has " ++ toString table.length ++ " rows, needs at least " ++
          toString min_rows ++ " rows"))
    else
      match config.header_processing_strategy table config.table_format with
      | .error e => .error (wrapExtract e)
      | .ok header =>
        match config.footer_processing_strategy table config.table_format with
        | .error e => .error (wrapExtract e)
        | .ok footer =>
          match extractLoop config table (table.length - footer_len) header_len with
          | .error e => .error (wrapExtract e)
          | .ok transactions => .ok (header ++ transactions ++ footer)

/-- Variant of `extractLoop` whose table reads are total (`getD`), used
to state that the loop's own indexing never goes out of bounds. -/
def extractLoopTotal (config : ProcessingConfiguration) (table : Table)
    (table_end : Nat) (i : Nat) : Except Exc (List Row) :=
  if _h : i < table_end - 1 then
    match (do
        let detail_row ←
          config.detail_row_processing_strategy (table.getD i []) config.table_format
        let transaction_row ←
          config.transaction_row_processing_strategy (table.getD (i + 1) [])
            config.table_format
        config.combine_rows_strategy detail_row transaction_row config.table_format :
        Except Exc Row) with
    | .error e => .error (wrapPair i table.length e)
    | .ok combined_row =>
      match extractLoopTotal config table table_end (i + 2) with
      | .error e => .error e
      | .ok rest => .ok (combined_row :: rest)
  else .ok []
termination_by table_end - i
decreasing_by omega

/-- Variant of `extract_transactions` built on `extractLoopTotal`. -/
def extract_transactionsTotal (config : ProcessingConfiguration) (table : Table) :
    Except Exc Table :=
  if table.isEmpty then .error (.tableProcessingError "Table is empty")
  else
    let header_len := config.table_format.header_len
    let footer_len := config.table_format.footer_len
    let min_rows := header_len + footer_len
    if table.length < min_rows then
      .error (.tableProcessingError
        ("Table has " ++ toString table.length ++ " rows, needs at least " ++
          toString min_rows ++ " rows"))
    else
      match config.header_processing_strategy table config.table_format with
      | .error e => .error (wrapExtract e)
      | .ok header =>
        match config.footer_processing_strategy table config.table_format with
        | .error e => .error (wrapExtract e)
        | .ok footer =>
          match extractLoopTotal config table (table.length - footer_len) header_len with
          | .error e => .error (wrapExtract e)
          | .ok transactions => .ok (header ++ transactions ++ footer)

/-- The `TransactionRowParsingConfig` built in `setup_configuration`:
`field_count=3`, default all-digits predicate. -/
def setup_transaction_row_parsing_config : TransactionRowParsingConfig :=
  { field_count := 3, id_test_func := pyIsdigit }

/-- The `TableFormat` built in `setup_configuration`. -/
def setup_table_format : TableFormat :=
  { header_len := 3, footer_len := 2, account_cell_index := 4,
    debit_cell_index := 5, credit_cell_index := 6,
    transaction_row_parsing_config := setup_transaction_row_parsing_config }

/-- The `ProcessingConfiguration` built in `setup_configuration`. -/
def setup_processing_config : ProcessingConfiguration :=
  { header_processing_strategy := empty_header,
    footer_processing_strategy := empty_footer,
    detail_row_processing_strategy := fun r fmt =>
      process_detail_row_and_process_account_debit_credit r fmt
        replace_whitespace convert_to_float convert_to_float,
    transaction_row_processing_strategy := parse_transaction_description,
    combine_rows_strategy := combine_rows,
    table_format := setup_table_format }

/-! ## Concrete fixtures used in witnesses and counterexamples -/

/-- A table format with no header/footer rows and all cell indices 0. -/
def fmtPlain : TableFormat :=
  { header_len := 0, footer_len := 0, account_cell_index := 0,
    debit_cell_index := 0, credit_cell_index := 0,
    transaction_row_parsing_config := { field_count := 3, id_test_func := pyIsdigit } }

/-- A table format with one header row and one footer row. -/
def fmtHF1 : TableFormat :=
  { fmtPlain with header_len := 1, footer_len := 1 }

/-- A table format whose parsing config has `field_count = 2`
(allowed by the pydantic bound `gt=0`). -/
def fmtField2 : TableFormat :=
  { fmtPlain with
    transaction_row_parsing_config := { field_count := 2, id_test_func := pyIsdigit } }

/-- A configuration whose row strategies always succeed. -/
def cfgTotal : ProcessingConfiguration :=
  { header_processing_strategy := empty_header,
    footer_processing_strategy := empty_footer,
    detail_row_processing_strategy := fun r _ => .ok r,
    transaction_row_processing_strategy := fun r _ => .ok r,
    combine_rows_strategy := fun r1 r2 _ => .ok (r1 ++ r2),
    table_format := fmtHF1 }

/-- A configuration whose detail strategy raises the domain error
`TableProcessingError("boom")`, as `parse_transaction_description` or
the detail processor would. -/
def cfgDomainFail : ProcessingConfiguration :=
  { cfgTotal with
    table_format := fmtPlain
    detail_row_processing_strategy := fun _ _ => .error (.tableProcessingError "boom") }

/-- A configuration whose header strategy raises a foreign `ValueError`. -/
def cfgHeaderFail : ProcessingConfiguration :=
  { cfgTotal with
    table_format := fmtPlain
    header_processing_strategy := fun _ _ => .error (.valueError "oops") }

/-- Five one-cell rows. -/
def tbl5 : Table := [[.str "r0"], [.str "r1"], [.str "r2"], [.str "r3"], [.str "r4"]]

/-- Two one-cell rows. -/
def tbl2 : Table := [[.str "a"], [.str "b"]]

/-- A seven-cell detail row matching `setup_table_format`
(account index 4, debit 5, credit 6). -/
def row7 : Row :=
  [.str "t", .str "d", .str "o", .str "k", .str "a c", .str "1,5", .str ""]

/-- `row7` after the configured detail transforms: spaces stripped from
the account cell, debit and credit parsed as floats. -/
def row7out : Row :=
  [.str "t", .str "d", .str "o", .str "k", .str "ac", .num (mkRat 3 2), .num 0]

/-! ## Supporting lemmas -/

theorem splitOnSpaceChars_ne_nil (cs : List Char) : splitOnSpaceChars cs ≠ [] := by
  cases cs with
  | nil => simp [splitOnSpaceChars]
  | cons c rest =>
    simp only [splitOnSpaceChars]
    split
    · simp
    · split <;> simp

theorem joinSpaceChars_splitOnSpaceChars (cs : List Char) :
    joinSpaceChars (splitOnSpaceChars cs) = cs := by
  induction cs with
  | nil => rfl
  | cons c rest ih =>
    simp only [splitOnSpaceChars]
    cases hs : splitOnSpaceChars rest with
    | nil => exact absurd hs (splitOnSpaceChars_ne_nil rest)
    | cons h t =>
      rw [hs] at ih
      dsimp only
      by_cases hc : c = ' '
      · subst hc
        simp only [if_pos rfl, joinSpaceChars]
        cases t <;> simpa [joinSpaceChars] using ih
      · rw [if_neg hc]
        cases t with
        | nil => simpa [joinSpaceChars] using ih
        | cons y t' => simpa [joinSpaceChars] using ih

theorem pyJoinSpace_pySplitSpace (s : String) : pyJoinSpace (pySplitSpace s) = s := by
  cases s with
  | mk data =>
    simp [pyJoinSpace, pySplitSpace, List.map_map]
    have h : (String.data ∘ String.mk) = id := rfl
    rw [h, List.map_id, joinSpaceChars_splitOnSpaceChars]

theorem pySplitSpace_ne_nil (s : String) : pySplitSpace s ≠ [] := by
  simp [pySplitSpace, splitOnSpaceChars_ne_nil]

theorem pyGet_eq_getD {α : Type} (l : List α) (i : Nat) (d : α) (h : i < l.length) :
    pyGet l i = .ok (l.getD i d) := by
  rw [pyGet, dif_pos h]
  simp [List.getD_eq_getElem, h, List.get_eq_getElem]

theorem foldr_max_le (l : List Nat) (N : Nat) (h : ∀ x ∈ l, x ≤ N) :
    l.foldr max 0 ≤ N := by
  induction l with
  | nil => simp
  | cons a t ih =>
    simp only [List.foldr_cons]
    exact max_le (h a (by simp)) (ih (fun x hx => h x (by simp [hx])))

theorem le_foldr_max (l : List Nat) (x : Nat) (hx : x ∈ l) : x ≤ l.foldr max 0 := by
  induction l with
  | nil => cases hx
  | cons a t ih =>
    simp only [List.foldr_cons]
    rcases List.mem_cons.mp hx with h | h
    · subst h
      exact le_max_left _ _
    · exact le_trans (ih h) (le_max_right _ _)

theorem extractLoop_ok_length (config : ProcessingConfiguration) (table : Table)
    (table_end : Nat) :
    ∀ n i l, table_end - i ≤ n → extractLoop config table table_end i = .ok l →
      l.length = (table_end - i) / 2 := by
  intro n
  induction n with
  | zero =>
    intro i l hn h
    rw [extractLoop] at h
    rw [dif_neg (by omega)] at h
    cases h
    simp only [List.length_nil]
    omega
  | succ n ih =>
    intro i l hn h
    rw [extractLoop] at h
    by_cases hc : i < table_end - 1
    · rw [dif_pos hc] at h
      split at h
      · exact absurd h (by simp)
      · split at h
        · exact absurd h (by simp)
        · next rest hrest =>
          cases h
          have := ih (i + 2) rest (by omega) hrest
          simp only [List.length_cons, this]
          omega
    · rw [dif_neg hc] at h
      cases h
      simp only [List.length_nil]
      omega
theorem extractLoop_eq_total (config : ProcessingConfiguration) (table : Table)
    (table_end : Nat) (hle : table_end ≤ table.length) :
    ∀ n i, table_end - i ≤ n →
      extractLoop config table table_end i =
        extractLoopTotal config table table_end i := by
  intro n
  induction n with
  | zero =>
    intro i hn
    rw [extractLoop, extractLoopTotal, dif_neg (by omega), dif_neg (by omega)]
  | succ n ih =>
    intro i hn
    rw [extractLoop, extractLoopTotal]
    by_cases hc : i < table_end - 1
    · rw [dif_pos hc, dif_pos hc]
      rw [pyGet_eq_getD table i [] (by omega), pyGet_eq_getD table (i + 1) [] (by omega)]
      simp only [bind, Except.bind]
      rw [ih (i + 2) (by omega)]
    · rw [dif_neg hc, dif_neg hc]

theorem extractLoop_ok_of_strategies_ok (config : ProcessingConfiguration)
    (table : Table) (table_end : Nat) (hle : table_end ≤ table.length)
    (hd : ∀ r, ∃ r', config.detail_row_processing_strategy r config.table_format = .ok r')
    (ht : ∀ r, ∃ r', config.transaction_row_processing_strategy r config.table_format = .ok r')
    (hcmb : ∀ r1 r2, ∃ r', config.combine_rows_strategy r1 r2 config.table_format = .ok r') :
    ∀ n i, table_end - i ≤ n → ∃ l, extractLoop config table table_end i = .ok l := by
  intro n
  induction n with
  | zero =>
    intro i hn
    rw [extractLoop, dif_neg (by omega)]
    exact ⟨[], rfl⟩
  | succ n ih =>
    intro i hn
    rw [extractLoop]
    by_cases hc : i < table_end - 1
    · rw [dif_pos hc]
      obtain ⟨d, hdd⟩ := hd (table.getD i [])
      obtain ⟨t, htt⟩ := ht (table.getD (i + 1) [])
      obtain ⟨c, hcc⟩ := hcmb d t
      obtain ⟨rest, hrest⟩ := ih (i + 2) (by omega)
      rw [pyGet_eq_getD table i [] (by omega), pyGet_eq_getD table (i + 1) [] (by omega)]
      simp only [bind, Except.bind, hdd, htt, hcc, hrest]
      exact ⟨c :: rest, rfl⟩
    · rw [dif_neg hc]
      exact ⟨[], rfl⟩

/-! ## Claim theorems -/

/-- C1: for a body window `[header_len, len(table) - footer_len)` of
size `B`, `extract_transactions` produces exactly `B / 2` combined
transaction rows between the header and footer parts of its output
(first conjunct), and an odd body — whose last row is silently dropped —
still succeeds whenever the strategies themselves succeed (second
conjunct). -/
theorem extract_transactions_pair_count (config : ProcessingConfiguration) (table : Table) :
    (∀ header footer out,
      config.header_processing_strategy table config.table_format = .ok header →
      config.footer_processing_strategy table config.table_format = .ok footer →
      extract_transactions config table = .ok out →
      out.length = header.length +
        (table.length - config.table_format.footer_len -
          config.table_format.header_len) / 2 + footer.length) ∧
    ((∀ r, ∃ r', config.detail_row_processing_strategy r config.table_format = .ok r') →
     (∀ r, ∃ r', config.transaction_row_processing_strategy r config.table_format = .ok r') →
     (∀ r1 r2, ∃ r', config.combine_rows_strategy r1 r2 config.table_format = .ok r') →
     (∃ hs, config.header_processing_strategy table config.table_format = .ok hs) →
     (∃ fs, config.footer_processing_strategy table config.table_format = .ok fs) →
     table ≠ [] →
     config.table_format.header_len + config.table_format.footer_len ≤ table.length →
     ∃ out, extract_transactions config table = .ok out) := by
  constructor
  · intro header footer out hh hf hout
    rw [extract_transactions] at hout
    by_cases hemp : table.isEmpty
    · rw [if_pos hemp] at hout; cases hout
    · rw [if_neg hemp] at hout
      dsimp only at hout
      by_cases hsz : table.length <
          config.table_format.header_len + config.table_format.footer_len
      · rw [if_pos hsz] at hout; cases hout
      · rw [if_neg hsz] at hout
        rw [hh, hf] at hout
        cases hloop : extractLoop config table
            (table.length - config.table_format.footer_len)
            config.table_format.header_len with
        | error e => rw [hloop] at hout; cases hout
        | ok trans =>
          rw [hloop] at hout
          cases hout
          have hlen := extractLoop_ok_length config table
            (table.length - config.table_format.footer_len)
            (table.length - config.table_format.footer_len -
              config.table_format.header_len)
            config.table_format.header_len trans (le_refl _) hloop
          simp only [List.length_append]
          omega
  · intro hd ht hcmb hhs hfs hne hsz
    obtain ⟨hs, hh⟩ := hhs
    obtain ⟨fs, hf⟩ := hfs
    rw [extract_transactions]
    rw [if_neg (by simpa [List.isEmpty_iff] using hne)]
    dsimp only
    rw [if_neg (by omega)]
    rw [hh, hf]
    obtain ⟨l, hloop⟩ := extractLoop_ok_of_strategies_ok config table
      (table.length - config.table_format.footer_len) (by omega) hd ht hcmb
      (table.length - config.table_format.footer_len) config.table_format.header_len
      (by omega)
    rw [hloop]
    exact ⟨hs ++ l ++ fs, rfl⟩

/-- Witness for C1: a five-row table with one header and one footer row
(odd body of three rows) yields exactly one combined row and no error. -/
theorem extract_transactions_pair_count_witness :
    ∃ out, extract_transactions cfgTotal tbl5 = .ok out ∧ out.length = 1 := by
  obtain ⟨out, hout⟩ := (extract_transactions_pair_count cfgTotal tbl5).2
    (fun r => ⟨r, rfl⟩) (fun r => ⟨r, rfl⟩) (fun r1 r2 => ⟨r1 ++ r2, rfl⟩)
    ⟨[], rfl⟩ ⟨[], rfl⟩ (by decide) (by decide)
  refine ⟨out, hout, ?_⟩
  have h := (extract_transactions_pair_count cfgTotal tbl5).1 [] [] out rfl rfl hout
  simpa [cfgTotal, fmtHF1, fmtPlain, tbl5] using h

/-- Counterexample to C2 as stated: an input using the "." thousands
convention, `"1.234,56"`, is not accepted — after space-stripping and
comma-mapping it reads `"1.234.56"`, which fails the float parse with a
`ValueError` instead of yielding `1234.56`. -/
theorem convert_to_float_thousands_dot_cex :
    convert_to_float (.str "1.234,56") =
      .error (.valueError "Cannot convert '1.234.56' to float") ∧
    convert_to_float (.str "1.234,56") ≠ .ok (.num (1234.56 : ℚ)) := by
  refine ⟨rfl, ?_⟩
  rw [show convert_to_float (.str "1.234,56") =
    .error (.valueError "Cannot convert '1.234.56' to float") from rfl]
  simp

/-- C2 (amended): `convert_to_float` strips spaces and maps "," to "."
(so spaces are the accepted thousands separator; "." thousands
separators are not accepted): `"1 234,56"` yields `1234.56`, `""`
yields `0.0`, every cleaned string that fails the float parse raises a
`ValueError`, and every cleaned string that parses yields its value. -/
theorem convert_to_float_spec :
    convert_to_float (.str "1 234,56") = .ok (.num (1234.56 : ℚ)) ∧
    convert_to_float (.str "") = .ok (.num 0) ∧
    (∀ s : String, s ≠ "" →
      pyFloat? (pyCommaToDot (pyRemoveSpaces s)) = none →
      convert_to_float (.str s) =
        .error (.valueError
          ("Cannot convert '" ++ pyCommaToDot (pyRemoveSpaces s) ++ "' to float"))) ∧
    (∀ (s : String) (q : ℚ), s ≠ "" →
      pyFloat? (pyCommaToDot (pyRemoveSpaces s)) = some q →
      convert_to_float (.str s) = .ok (.num q)) := by
  refine ⟨?_, rfl, ?_, ?_⟩
  · rw [show convert_to_float (.str "1 234,56") = .ok (.num (mkRat 30864 25)) from rfl]
    norm_num [Rat.mkRat_eq_div]
  · intro s hs hnone
    have hemp : s.isEmpty = false := by
      simp [Bool.eq_false_iff, String.isEmpty_iff]
      exact hs
    rw [convert_to_float]
    simp only [hemp, Bool.false_eq_true, if_false, hnone]
  · intro s q hs hsome
    have hemp : s.isEmpty = false := by
      simp [Bool.eq_false_iff, String.isEmpty_iff]
      exact hs
    rw [convert_to_float]
    simp only [hemp, Bool.false_eq_true, if_false, hsome]

/-- Witness for C2: a non-numeric string raises the `ValueError`, and a
decimal-comma string parses to its exact value. -/
theorem convert_to_float_spec_witness :
    convert_to_float (.str "abc") =
      .error (.valueError "Cannot convert 'abc' to float") ∧
    convert_to_float (.str "2,5") = .ok (.num (mkRat 5 2)) := by
  constructor
  · have h := convert_to_float_spec.2.2.1 "abc" (by decide) (by rfl)
    rw [show pyCommaToDot (pyRemoveSpaces "abc") = "abc" from rfl] at h
    exact h
  · exact convert_to_float_spec.2.2.2 "2,5" (mkRat 5 2) (by decide) (by rfl)

/-- Counterexample to C3 as stated: a `TableProcessingError` raised by
the detail-row strategy inside the pairing loop of
`extract_transactions` does not propagate unchanged — it is re-wrapped
in a new `TableProcessingError` naming the offending row indices. -/
theorem extract_transactions_domain_rewrap_cex :
    extract_transactions cfgDomainFail tbl2 =
      .error (.tableProcessingError "Error processing rows 0-1: boom") ∧
    extract_transactions cfgDomainFail tbl2 ≠
      .error (.tableProcessingError "boom") := by
  have h : extract_transactions cfgDomainFail tbl2 =
      .error (.tableProcessingError "Error processing rows 0-1: boom") := by
    simp [extract_transactions, extractLoop, cfgDomainFail, cfgTotal, fmtPlain, tbl2,
      pyGet, bind, Except.bind, wrapPair, wrapExtract, wrapUnlessDomain,
      Exc.isIndexError, Exc.isTableProcessingError, Exc.msg, empty_header, empty_footer]
    rfl
  refine ⟨h, ?_⟩
  rw [h]
  simp

/-- C3 (amended): `extract_transactions` wraps a foreign header-stage
failure as its own `TableProcessingError` while letting a domain error
from that stage pass through unchanged (first conjunct); inside the
per-pair loop, however, every strategy failure — domain errors
included — is re-wrapped with the offending row index, as an
`"Index error at row i/len"` for an `IndexError` and
`"Error processing rows i-(i+1): ..."` otherwise (second conjunct). -/
theorem extract_transactions_error_wrapping
    (config : ProcessingConfiguration) (table : Table) (e : Exc) :
    (table ≠ [] →
      config.table_format.header_len + config.table_format.footer_len ≤ table.length →
      config.header_processing_strategy table config.table_format = .error e →
      extract_transactions config table =
        .error (if e.isTableProcessingError then e
          else .tableProcessingError ("Error extracting transactions: " ++ e.msg))) ∧
    (∀ hs fs,
      table ≠ [] →
      config.table_format.header_len + config.table_format.footer_len ≤ table.length →
      config.table_format.header_len + 1 < table.length - config.table_format.footer_len →
      config.header_processing_strategy table config.table_format = .ok hs →
      config.footer_processing_strategy table config.table_format = .ok fs →
      config.detail_row_processing_strategy
        (table.getD config.table_format.header_len []) config.table_format = .error e →
      extract_transactions config table =
        .error (.tableProcessingError
          (if e.isIndexError then
            "Index error at row " ++ toString config.table_format.header_len ++ "/" ++
              toString table.length
          else
            "Error processing rows " ++ toString config.table_format.header_len ++ "-" ++
              toString (config.table_format.header_len + 1) ++ ": " ++ e.msg))) := by
  constructor
  · intro hne hsz hh
    rw [extract_transactions, if_neg (by simpa [List.isEmpty_iff] using hne)]
    dsimp only
    rw [if_neg (by omega), hh]
    simp [wrapExtract, wrapUnlessDomain]
  · intro hs fs hne hsz hbody hh hf hd
    rw [extract_transactions, if_neg (by simpa [List.isEmpty_iff] using hne)]
    dsimp only
    rw [if_neg (by omega), hh, hf]
    rw [extractLoop, dif_pos (by omega)]
    rw [pyGet_eq_getD table config.table_format.header_len [] (by omega)]
    simp only [bind, Except.bind, hd]
    by_cases he : e.isIndexError
    · simp [wrapPair, he, wrapExtract, wrapUnlessDomain, Exc.isTableProcessingError]
    · simp [wrapPair, he, wrapExtract, wrapUnlessDomain, Exc.isTableProcessingError]

/-- Witness for C3 (amended): a foreign `ValueError` from the header
stage is wrapped with the stage prefix, and a domain error from the
detail strategy is re-wrapped with the row indices. -/
theorem extract_transactions_error_wrapping_witness :
    extract_transactions cfgHeaderFail tbl2 =
      .error (.tableProcessingError "Error extracting transactions: oops") ∧
    extract_transactions cfgDomainFail tbl2 =
      .error (.tableProcessingError "Error processing rows 0-1: boom") := by
  constructor
  · have h := (extract_transactions_error_wrapping cfgHeaderFail tbl2 (.valueError "oops")).1
      (by decide) (by decide) rfl
    simpa [Exc.isTableProcessingError, Exc.msg] using h
  · have h := (extract_transactions_error_wrapping cfgDomainFail tbl2
      (.tableProcessingError "boom")).2 [] [] (by decide) (by decide) (by decide) rfl rfl rfl
    simpa [Exc.isIndexError, Exc.msg] using h

/-- C4: when `header_len + footer_len ≤ len(table)`, the pairing loop's
own table reads never go out of bounds: `extract_transactions` computes
the same result as the variant whose table reads are total, and every
index the loop guard admits is within the table (the reads of `table[i]`
and `table[i+1]` succeed for all `header_len ≤ i` with
`i + 1 < len(table) - footer_len`). -/
theorem extract_transactions_table_access_in_bounds
    (config : ProcessingConfiguration) (table : Table)
    (h : config.table_format.header_len + config.table_format.footer_len ≤ table.length) :
    extract_transactions config table = extract_transactionsTotal config table ∧
    (∀ i, config.table_format.header_len ≤ i →
      i + 1 < table.length - config.table_format.footer_len →
      ∃ r1 r2, pyGet table i = .ok r1 ∧ pyGet table (i + 1) = .ok r2) := by
  constructor
  · rw [extract_transactions, extract_transactionsTotal]
    by_cases hemp : table.isEmpty
    · rw [if_pos hemp, if_pos hemp]
    · rw [if_neg hemp, if_neg hemp]
      dsimp only
      rw [extractLoop_eq_total config table
        (table.length - config.table_format.footer_len) (by omega)
        (table.length - config.table_format.footer_len) config.table_format.header_len
        (by omega)]
  · intro i hlo hhi
    exact ⟨table.getD i [], table.getD (i + 1) [],
      pyGet_eq_getD table i [] (by omega), pyGet_eq_getD table (i + 1) [] (by omega)⟩

/-- Witness for C4 at a concrete configuration and table. -/
theorem extract_transactions_table_access_in_bounds_witness :
    extract_transactions cfgTotal tbl5 = extract_transactionsTotal cfgTotal tbl5 :=
  (extract_transactions_table_access_in_bounds cfgTotal tbl5 (by decide)).1

/-- Counterexample to C5 as stated: a first cell with no digit-only
token is returned stripped of surrounding whitespace, not verbatim:
`" x"` yields counterparty `"x"`, not the entire text `" x"`. -/
theorem parse_transaction_description_untrimmed_cex :
    parse_transaction_description [.str " x"] setup_table_format =
      .ok [.str "x", .str "", .str ""] ∧
    parse_transaction_description [.str " x"] setup_table_format ≠
      .ok [.str " x", .str "", .str ""] := by
  refine ⟨rfl, ?_⟩
  rw [show parse_transaction_description [.str " x"] setup_table_format =
    .ok [.str "x", .str "", .str ""] from rfl]
  simp

/-- C5 (amended): with the default all-digits predicate and
`field_count 3`, `"ACME CO 12345 monthly fee"` parses to
`["ACME CO", "12345", "monthly fee"]`; a first cell with no digit-only
token yields `[entire text stripped of surrounding whitespace, "", ""]`;
and an empty row or empty first cell yields `["", "", ""]`. -/
theorem parse_transaction_description_spec :
    (∀ rest, parse_transaction_description (.str "ACME CO 12345 monthly fee" :: rest)
        setup_table_format = .ok [.str "ACME CO", .str "12345", .str "monthly fee"]) ∧
    (∀ (s : String) (rest : List Cell), s ≠ "" →
      (∀ w ∈ pySplitSpace s, pyIsdigit w = false) →
      parse_transaction_description (.str s :: rest) setup_table_format =
        .ok [.str (pyStrip s), .str "", .str ""]) ∧
    parse_transaction_description [] setup_table_format =
      .ok [.str "", .str "", .str ""] ∧
    (∀ rest, parse_transaction_description (.str "" :: rest) setup_table_format =
      .ok [.str "", .str "", .str ""]) := by
  refine ⟨fun rest => rfl, ?_, rfl, fun rest => rfl⟩
  intro s rest hs hno
  have hemp : s.isEmpty = false := by
    simp [Bool.eq_false_iff, String.isEmpty_iff]
    exact hs
  have hfind : (pySplitSpace s).findIdx? pyIsdigit = none := by
    rw [List.findIdx?_eq_none_iff]
    exact hno
  have hne : (pySplitSpace s).isEmpty = false := by
    simp [Bool.eq_false_iff, List.isEmpty_iff]
    exact pySplitSpace_ne_nil s
  rw [parse_transaction_description]
  dsimp only
  simp only [Cell.isTruthy, hemp, Bool.not_false, Bool.not_true, if_false, hfind, hne,
    Bool.false_eq_true, pySet, setup_table_format, setup_transaction_row_parsing_config,
    List.replicate, pyJoinSpace_pySplitSpace]
  norm_num [List.set]

/-- Witness for C5 (amended): the three-field parse of the example row,
and a cell with no digit-only token returned whole. -/
theorem parse_transaction_description_spec_witness :
    parse_transaction_description [.str "ACME CO 12345 monthly fee"] setup_table_format =
      .ok [.str "ACME CO", .str "12345", .str "monthly fee"] ∧
    parse_transaction_description [.str "no id here"] setup_table_format =
      .ok [.str "no id here", .str "", .str ""] := by
  constructor
  · exact parse_transaction_description_spec.1 []
  · have h := parse_transaction_description_spec.2.1 "no id here" [] (by decide) (by decide)
    rw [show pyStrip "no id here" = "no id here" from rfl] at h
    exact h

/-- C6: `choose_table` returns `tables[index]` whenever the index is in
`[0, len - 1]` and the selected table is non-empty, and fails with a
`TableProcessingError` exactly when the document has no tables, the
index is out of `[0, len - 1]`, or the selected table is empty. -/
theorem choose_table_spec (tables : Document) (fmt : InputDocumentFormat) :
    (0 ≤ fmt.table_index → fmt.table_index < (tables.length : Int) →
      tables.getD fmt.table_index.toNat [] ≠ [] →
      choose_table tables fmt = .ok (tables.getD fmt.table_index.toNat [])) ∧
    ((∃ m, choose_table tables fmt = .error (.tableProcessingError m)) ↔
      (tables = [] ∨ fmt.table_index < 0 ∨ (tables.length : Int) ≤ fmt.table_index ∨
        tables.getD fmt.table_index.toNat [] = [])) := by
  rw [choose_table]
  by_cases hemp : tables.isEmpty
  · have he : tables = [] := by simpa [List.isEmpty_iff] using hemp
    rw [if_pos hemp]
    subst he
    constructor
    · intro h1 h2 h3
      simp at h2
      omega
    · simp
  · have he : tables ≠ [] := by simpa [List.isEmpty_iff] using hemp
    rw [if_neg hemp]
    dsimp only
    by_cases hrange : fmt.table_index < 0 ∨ (tables.length : Int) ≤ fmt.table_index
    · rw [if_pos hrange]
      constructor
      · intro h1 h2 h3
        omega
      · constructor
        · intro _
          rcases hrange with h | h
          · exact Or.inr (Or.inl h)
          · exact Or.inr (Or.inr (Or.inl h))
        · intro _
          exact ⟨_, rfl⟩
    · rw [if_neg hrange]
      by_cases htab : (tables.getD fmt.table_index.toNat []).isEmpty
      · have ht : tables.getD fmt.table_index.toNat [] = [] := by
          simpa [List.isEmpty_iff] using htab
        rw [if_pos htab]
        constructor
        · intro _ _ h3
          exact absurd ht h3
        · constructor
          · intro _
            exact Or.inr (Or.inr (Or.inr ht))
          · intro _
            exact ⟨_, rfl⟩
      · have ht : tables.getD fmt.table_index.toNat [] ≠ [] := by
          simpa [List.isEmpty_iff] using htab
        rw [if_neg htab]
        constructor
        · intro _ _ _
          rfl
        · constructor
          · rintro ⟨m, hm⟩
            cases hm
          · rintro (h | h | h | h)
            · exact absurd h he
            · exact absurd h (by omega)
            · exact absurd h (by omega)
            · exact absurd h ht

/-- Witness for C6: index 0 of a one-table document succeeds; index 1
(equal to the table count) fails with a `TableProcessingError`. -/
theorem choose_table_spec_witness :
    choose_table [tbl2] { path := "doc.docx", table_index := 0 } = .ok tbl2 ∧
    (∃ m, choose_table [tbl2] { path := "doc.docx", table_index := 1 } =
      .error (.tableProcessingError m)) := by
  constructor
  · have h := (choose_table_spec [tbl2] { path := "doc.docx", table_index := 0 }).1
      (by decide) (by decide) (by decide)
    simpa using h
  · exact (choose_table_spec [tbl2] { path := "doc.docx", table_index := 1 }).2.mpr
      (Or.inr (Or.inr (Or.inl (by decide))))

/-- Counterexample to C7 as stated: the exporter is not a pure
first-row width check — a later row wider than the column list makes
the `DataFrame` construction raise, wrapped as an `ExportError`, even
though the first row's width matches the two column names. -/
theorem export_to_excel_wide_row_cex :
    export_to_excel [[.str "a", .str "b"], [.str "c", .str "d", .str "e"]]
      { path := "out.xlsx", columns := ["x", "y"] } =
      .error (.exportError
        "Failed to export to Excel: 2 columns passed, passed data had 3 columns") ∧
    export_to_excel [[.str "a", .str "b"], [.str "c", .str "d", .str "e"]]
      { path := "out.xlsx", columns := ["x", "y"] } ≠ .ok () := by
  refine ⟨rfl, ?_⟩
  rw [show export_to_excel [[.str "a", .str "b"], [.str "c", .str "d", .str "e"]]
    { path := "out.xlsx", columns := ["x", "y"] } =
    .error (.exportError
      "Failed to export to Excel: 2 columns passed, passed data had 3 columns") from rfl]
  simp

/-- C7 (amended): the exporter fails with an `ExportError` exactly when
the table is empty, the first row's width differs from the column
count, or some row is wider than the column count (the `DataFrame`
conversion pads shorter rows but rejects wider ones); a table whose
first row matches and whose later rows are no wider is accepted, the
explicit width validation itself looking only at the first row. -/
theorem export_to_excel_spec (table : Table) (fmt : OutputDocumentFormat) :
    ((∃ m, export_to_excel table fmt = .error (.exportError m)) ↔
      (table = [] ∨ (table.headD []).length ≠ fmt.columns.length ∨
        ∃ r ∈ table, fmt.columns.length < r.length)) ∧
    (table ≠ [] → (table.headD []).length = fmt.columns.length →
      (∀ r ∈ table, r.length ≤ fmt.columns.length) →
      export_to_excel table fmt = .ok ()) := by
  rw [export_to_excel]
  by_cases hemp : table.isEmpty
  · have he : table = [] := by simpa [List.isEmpty_iff] using hemp
    rw [if_pos hemp]
    exact ⟨⟨fun _ => Or.inl he, fun _ => ⟨_, rfl⟩⟩, fun h _ _ => absurd he h⟩
  · have he : table ≠ [] := by simpa [List.isEmpty_iff] using hemp
    rw [if_neg hemp]
    by_cases hw : (table.headD []).length = fmt.columns.length
    · rw [if_neg (not_ne_iff.mpr hw)]
      dsimp only
      have hmem : (table.headD []).length ∈ table.map List.length := by
        cases table with
        | nil => exact absurd rfl he
        | cons a t => simp
      have h2 : fmt.columns.length ≤ (table.map List.length).foldr max 0 :=
        hw ▸ le_foldr_max _ _ hmem
      by_cases hmax : (table.map List.length).foldr max 0 = fmt.columns.length
      · rw [if_neg (not_ne_iff.mpr hmax)]
        constructor
        · constructor
          · rintro ⟨m, hm⟩
            cases hm
          · rintro (h | h | ⟨r, hr, hlen⟩)
            · exact absurd h he
            · exact absurd hw h
            · have := le_foldr_max (table.map List.length) r.length
                (List.mem_map_of_mem List.length hr)
              omega
        · intro _ _ _
          rfl
      · rw [if_pos hmax]
        constructor
        · constructor
          · intro _
            refine Or.inr (Or.inr ?_)
            by_contra hcon
            push_neg at hcon
            have h1 : (table.map List.length).foldr max 0 ≤ fmt.columns.length := by
              apply foldr_max_le
              intro x hxm
              obtain ⟨r, hr, hrx⟩ := List.mem_map.mp hxm
              exact hrx ▸ hcon r hr
            omega
          · intro _
            exact ⟨_, rfl⟩
        · intro _ _ hall
          exfalso
          have h1 : (table.map List.length).foldr max 0 ≤ fmt.columns.length := by
            apply foldr_max_le
            intro x hxm
            obtain ⟨r, hr, hrx⟩ := List.mem_map.mp hxm
            exact hrx ▸ hall r hr
          omega
    · rw [if_pos hw]
      exact ⟨⟨fun _ => Or.inr (Or.inl hw), fun _ => ⟨_, rfl⟩⟩, fun _ h _ => absurd h hw⟩

/-- Witness for C7 (amended): a first row of width 2 against two column
names is accepted although the second row is shorter (width 1). -/
theorem export_to_excel_spec_witness :
    export_to_excel [[.str "a", .str "b"], [.str "c"]]
      { path := "out.xlsx", columns := ["x", "y"] } = .ok () :=
  (export_to_excel_spec [[.str "a", .str "b"], [.str "c"]]
    { path := "out.xlsx", columns := ["x", "y"] }).2 (by decide) (by decide) (by decide)

/-- C8: the detail-row transformer never alters anything but the
account, debit and credit positions: a successful result has the same
length as the input row and agrees with it at every other index (the
transformer works on a copy, so in the pure model this frame condition
is the content of "the original row is never mutated in place"). -/
theorem detail_row_transform_frame
    (row : Row) (table_format : TableFormat)
    (fa fd fc : Cell → Except Exc Cell) (r : Row)
    (h : process_detail_row_and_process_account_debit_credit row table_format
      fa fd fc = .ok r) :
    r.length = row.length ∧
    (∀ j, j < row.length → j ≠ table_format.account_cell_index →
      j ≠ table_format.debit_cell_index → j ≠ table_format.credit_cell_index →
      r.getD j (.str "") = row.getD j (.str "")) := by
  rw [process_detail_row_and_process_account_debit_credit] at h
  simp only [bind, Except.bind] at h
  split at h
  · next r' heq =>
    split at heq
    · simp at heq
    · next u hv1 =>
      split at heq
      · simp at heq
      · next u2 hv2 =>
        split at heq
        · simp at heq
        · next u3 hv3 =>
          split at heq
          · simp at heq
          · next a ha =>
            split at heq
            · simp at heq
            · next d hd =>
              split at heq
              · simp at heq
              · next c hc =>
                cases heq
                cases h
                constructor
                · simp [List.length_set]
                · intro j hj hja hjd hjc
                  simp only [List.getD_eq_getElem?_getD,
                    List.getElem?_set_ne (Ne.symm hjc),
                    List.getElem?_set_ne (Ne.symm hjd),
                    List.getElem?_set_ne (Ne.symm hja)]
  · simp at h

/-- Witness for C8: the configured transforms applied to a seven-cell
row leave a non-configured cell (index 1) unchanged. -/
theorem detail_row_transform_frame_witness :
    ∃ r, process_detail_row_and_process_account_debit_credit row7 setup_table_format
        replace_whitespace convert_to_float convert_to_float = .ok r ∧
      r.length = row7.length ∧ r.getD 1 (.str "") = row7.getD 1 (.str "") := by
  have hok : process_detail_row_and_process_account_debit_credit row7 setup_table_format
      replace_whitespace convert_to_float convert_to_float = .ok row7out := rfl
  obtain ⟨hlen, hframe⟩ := detail_row_transform_frame row7 setup_table_format
    replace_whitespace convert_to_float convert_to_float row7out hok
  exact ⟨row7out, hok, hlen, hframe 1 (by decide) (by decide) (by decide) (by decide)⟩

/-- C9: although the configuration admits every `field_count > 0`, the
transaction parser writes to fixed positions 0, 1, 2, so with
`field_count < 3` any first cell containing a token accepted by the ID
predicate raises a `TableProcessingError` wrapping the `IndexError`
from the out-of-range list assignment. -/
theorem parse_transaction_description_low_field_count
    (table_format : TableFormat) (s : String) (rest : List Cell)
    (hfc0 : 0 < table_format.transaction_row_parsing_config.field_count)
    (hfc3 : table_format.transaction_row_parsing_config.field_count < 3)
    (hs : s ≠ "")
    (hid : ∃ w ∈ pySplitSpace s,
      table_format.transaction_row_parsing_config.id_test_func w = true) :
    parse_transaction_description (.str s :: rest) table_format =
      .error (.tableProcessingError
        "Error parsing transaction description: list assignment index out of range") := by
  have hemp : s.isEmpty = false := by
    simp [Bool.eq_false_iff, String.isEmpty_iff]
    exact hs
  have hfind := List.findIdx?_eq_some_of_exists (by
    obtain ⟨w, hw, hp⟩ := hid
    exact ⟨w, hw, hp⟩ :
    ∃ w, w ∈ pySplitSpace s ∧
      table_format.transaction_row_parsing_config.id_test_func w = true)
  rw [parse_transaction_description]
  dsimp only
  simp only [Cell.isTruthy, hemp, Bool.not_false, Bool.not_true, if_false,
    Bool.false_eq_true, hfind]
  have hfc : table_format.transaction_row_parsing_config.field_count = 1 ∨
      table_format.transaction_row_parsing_config.field_count = 2 := by omega
  rcases hfc with h1 | h1 <;>
    simp [h1, pySet, List.replicate, bind, Except.bind, Exc.msg, List.set]

/-- Witness for C9: `field_count = 2` and a digit token in the first
cell produce the wrapped index error. -/
theorem parse_transaction_description_low_field_count_witness :
    parse_transaction_description [.str "a 12"] fmtField2 =
      .error (.tableProcessingError
        "Error parsing transaction description: list assignment index out of range") :=
  parse_transaction_description_low_field_count fmtField2 "a 12" []
    (by decide) (by decide) (by decide) ⟨"12", by decide, by decide⟩

/-- C10: the emptiness check precedes the type check in
`parse_transaction_description`: a falsy non-string first cell (the
float `0.0`) yields `field_count` empty fields, while a truthy
non-string first cell raises a `TableProcessingError` reporting the
unexpected type. -/
theorem parse_transaction_description_falsy_first_cell
    (table_format : TableFormat) (rest : List Cell) (q : ℚ) :
    parse_transaction_description (.num 0 :: rest) table_format =
      .ok (List.replicate table_format.transaction_row_parsing_config.field_count
        (.str "")) ∧
    (q ≠ 0 →
      parse_transaction_description (.num q :: rest) table_format =
        .error (.tableProcessingError
          "Error parsing transaction description: Expected string in row[0], got float")) := by
  constructor
  · rw [parse_transaction_description]
    simp [Cell.isTruthy]
  · intro hq
    rw [parse_transaction_description]
    simp [Cell.isTruthy, hq, Exc.msg]

/-- Witness for C10: `0.0` yields three empty fields; `5.0` yields the
type-mismatch error. -/
theorem parse_transaction_description_falsy_first_cell_witness :
    parse_transaction_description [.num 0] fmtPlain =
      .ok [.str "", .str "", .str ""] ∧
    parse_transaction_description [.num 5] fmtPlain =
      .error (.tableProcessingError
        "Error parsing transaction description: Expected string in row[0], got float") := by
  have h := parse_transaction_description_falsy_first_cell fmtPlain [] 5
  exact ⟨h.1, h.2 (by norm_num)⟩
